import Mathlib

/-!
Verification of the pySamsung remote-control client (samsung/base.py and
samsung/listener.py) against its natural-language specification.

Python strings handled by the codec are modelled as lists of natural
numbers (one per character, the value being its code point; on-the-wire
data is bytes, i.e. values below 256).  Python exceptions are modelled by
`Except` with an explicit error inductive per failure family.
-/

/-- A Python string, one code point per element. -/
abbrev Str := List Nat

/-- Errors raised by `sstv_string` (encode side): `ValueError("String too long")`. -/
inductive EncodeErr where
  | valueTooLarge
deriving DecidableEq

/-- Errors raised on the decode side.

`indexError` models Python `IndexError` from `ord(data[0])` / `ord(data[1])`
on a too-short buffer; `missingBytes n` models
`ValueError("missing %d bytes in %r")`; `parserError rem` models
`ValueError("Parser error: message %r, remaining data: %r")`. -/
inductive PErr where
  | indexError
  | missingBytes (declared : Nat)
  | parserError (remaining : Str)
deriving DecidableEq

/-- `sstv_string` from base.py lines 112-126: length-prefix encoder.

    length = len(string)
    if length > 256 * 256: raise ValueError("String too long")
    return chr(length % 256) + chr(length // 256) + string -/
def sstv_string (string : Str) : Except EncodeErr Str :=
  if string.length > 256 * 256 then .error .valueTooLarge
  else .ok (string.length % 256 :: string.length / 256 :: string)

/-- `parse_sstv_string` from base.py lines 140-158: length-prefix decoder.

    length = ord(data[0]) + ord(data[1]) * 256      -- IndexError if len(data) < 2
    if len(data) < length + 2: raise ValueError("missing %d bytes in %r")
    return data[2:length + 2], data[length + 2:] -/
def parse_sstv_string (data : Str) : Except PErr (Str × Str) :=
  match data with
  | b0 :: b1 :: rest =>
    if (b0 :: b1 :: rest).length < (b0 + b1 * 256) + 2 then
      .error (.missingBytes (b0 + b1 * 256))
    else
      .ok (((b0 :: b1 :: rest).drop 2).take (b0 + b1 * 256),
           (b0 :: b1 :: rest).drop ((b0 + b1 * 256) + 2))
  | _ => .error .indexError

/-- A message sent by a samsung device (base.py class `Message`).
`sender` is `Option` because the constructor default is `None`;
`Message.parse` always supplies it. -/
structure Message where
  type : Nat
  payload : Str
  sender : Option Str
deriving DecidableEq

/-- `Message.parse` from base.py lines 187-201.

    type_ = ord(message[0])                          -- IndexError on empty input
    (sender, remaining) = parse_sstv_string(message[1:])
    (payload, remaining) = parse_sstv_string(remaining)
    if len(remaining): raise ValueError("Parser error: ...")
    return cls(type_, payload, sender) -/
def Message.parse (message : Str) : Except PErr Message :=
  match message with
  | [] => .error .indexError
  | t :: rest =>
    match parse_sstv_string rest with
    | .error e => .error e
    | .ok (sender, remaining) =>
      match parse_sstv_string remaining with
      | .error e => .error e
      | .ok (payload, remaining2) =>
        if remaining2.length ≠ 0 then .error (.parserError remaining2)
        else .ok ⟨t, payload, some sender⟩

/-- `ResponsePayload.AUTH_OK` = "\x64\x00\x01\x00". -/
def AUTH_OK : Str := [0x64, 0x00, 0x01, 0x00]

/-- `ResponsePayload.AUTH_ACCESS_DENIED` = "\x64\x00\x00\x00". -/
def AUTH_ACCESS_DENIED : Str := [0x64, 0x00, 0x00, 0x00]

/-- `ResponsePayload.AUTH_NEED_CONFIRM` = "\x0a\x00\x02\x00\x00\x00". -/
def AUTH_NEED_CONFIRM : Str := [0x0a, 0x00, 0x02, 0x00, 0x00, 0x00]

/-- `ResponsePayload.AUTH_TIMEOUT` = "\x64\x00". -/
def AUTH_TIMEOUT : Str := [0x64, 0x00]

/-- One outcome of a raw `self._sock.recv(2048)` call: the OS read timed out,
the socket raised `socket.error`, or some data (possibly empty) arrived. -/
inductive RecvEvent where
  | timeout
  | sockError
  | data (d : Str)
deriving DecidableEq

/-- Exceptions escaping `SmartTV.recv`: `socket.timeout` (with its message)
or a re-raised `socket.error`. -/
inductive RecvErr where
  | timeout (msg : String)
  | socketError
deriving DecidableEq

/-- `SmartTV.recv` from base.py lines 373-397.

    data = self._sock.recv(2048)
    if len(data) == 0:
        raise socket.timeout("Received 0 bytes -- disconnected?")
    ... except socket.timeout: raise / except socket.error: raise
    return data

The source message of the zero-byte branch is "Received 0 bytes" followed by
a double dash and " disconnected?"; the model shortens it to
"Received 0 bytes" (message text is irrelevant to the exception kind). -/
def recv (raw : RecvEvent) : Except RecvErr Str :=
  match raw with
  | .timeout => .error (.timeout "timed out")
  | .sockError => .error .socketError
  | .data d => if d.length = 0 then .error (.timeout "Received 0 bytes") else .ok d

/-- The Python exception class of a `RecvErr`: `socket.timeout` vs `socket.error`. -/
inductive ErrKind where
  | timeoutKind
  | socketKind
deriving DecidableEq

/-- Exception class of the error in a `recv` result, if any. -/
def recvErrKind (r : Except RecvErr Str) : Option ErrKind :=
  match r with
  | .error (.timeout _) => some .timeoutKind
  | .error .socketError => some .socketKind
  | .ok _ => none

/-- Classification of one auth response by `SmartTV._parse_auth_response`
(base.py lines 333-366): `ok` = returns True, `denied` = closes the socket
and returns False, `waiting` = returns None, `authTimeout` = raises
`AuthenticationError("timeout")`, `unknown` = raises ValueError,
`parseFail` = `Message.parse` raised (propagates). -/
inductive AuthClass where
  | ok
  | denied
  | waiting
  | authTimeout
  | unknown
  | parseFail (e : PErr)
deriving DecidableEq

/-- `SmartTV._parse_auth_response`, classification part (the `response is None`
branch is unreachable because `recv` never returns None).

    parsed = Message.parse(response)
    if parsed.payload == ResponsePayload.AUTH_OK: return True
    elif parsed.payload == ResponsePayload.AUTH_ACCESS_DENIED:
        self._sock.close(); return False
    elif parsed.payload == ResponsePayload.AUTH_NEED_CONFIRM: return None
    elif parsed.payload == ResponsePayload.AUTH_TIMEOUT:
        raise AuthenticationError("timeout")
    else: raise ValueError("unknown auth response: %r" % parsed) -/
def parse_auth_response (response : Str) : AuthClass :=
  match Message.parse response with
  | .error e => .parseFail e
  | .ok parsed =>
    if parsed.payload = AUTH_OK then .ok
    else if parsed.payload = AUTH_ACCESS_DENIED then .denied
    else if parsed.payload = AUTH_NEED_CONFIRM then .waiting
    else if parsed.payload = AUTH_TIMEOUT then .authTimeout
    else .unknown

/-- Overall outcome of `SmartTV._authenticate`: `success` = returns True,
`accessDenied` = `AuthenticationError("access denied by remote device")`,
`authTimeoutErr` = `AuthenticationError("timeout")`, `unknownResponse` and
`parseErr` = propagated ValueError / IndexError, `socketError` = propagated
`socket.error` (in particular from a recv on a socket that
`_parse_auth_response` closed after AUTH_ACCESS_DENIED). -/
inductive AuthResult where
  | success
  | accessDenied
  | authTimeoutErr
  | unknownResponse
  | parseErr (e : PErr)
  | socketError
deriving DecidableEq

/-- The retry loop of `SmartTV._authenticate` (base.py lines 313-331).

    status = None
    for i in range(self._auth_tries):
        try:
            response = self.recv()
        except socket.timeout:
            pass  -- status unchanged; it is never True here, so the loop goes on
        else:
            status = self._parse_auth_response(response)
        if status:
            self._sock.settimeout(self._recv_timeout)
            return True
    else:
        raise AuthenticationError("access denied by remote device")

`events i` is what the socket does on the i-th recv call; `closed` records
that `_parse_auth_response` closed the socket (a further recv then raises
`socket.error`).  The second component counts recv attempts made.
Since `status` can only ever be None or False when the loop continues, the
persistence of `status` across iterations never alters control flow, and the
loop is faithfully a recursion on the remaining attempts. -/
def authLoop (events : Nat → RecvEvent) : Nat → Nat → Bool → AuthResult × Nat
  | _, 0, _ => (.accessDenied, 0)
  | i, fuel + 1, closed =>
    if closed then (.socketError, 1)
    else
      match recv (events i) with
      | .error (.timeout _) =>
        ((authLoop events (i + 1) fuel closed).1,
         (authLoop events (i + 1) fuel closed).2 + 1)
      | .error .socketError => (.socketError, 1)
      | .ok d =>
        match parse_auth_response d with
        | .ok => (.success, 1)
        | .waiting =>
          ((authLoop events (i + 1) fuel closed).1,
           (authLoop events (i + 1) fuel closed).2 + 1)
        | .denied =>
          ((authLoop events (i + 1) fuel true).1,
           (authLoop events (i + 1) fuel true).2 + 1)
        | .authTimeout => (.authTimeoutErr, 1)
        | .unknown => (.unknownResponse, 1)
        | .parseFail e => (.parseErr e, 1)

/-- `SmartTV.__init__`: `self._auth_tries = 3` (the default and only value). -/
def auth_tries : Nat := 3

/-- `SmartTV._authenticate`, starting with an open socket and the full
attempt budget. -/
def authenticate (events : Nat → RecvEvent) (tries : Nat) : AuthResult × Nat :=
  authLoop events 0 tries false

/-- A receive outcome that is non-terminal for the auth loop: a receive
timeout (including a zero-byte read, which `recv` turns into
`socket.timeout`) or a well-formed response whose payload is
AUTH_NEED_CONFIRM. -/
def isNonTerminal (e : RecvEvent) : Bool :=
  match e with
  | .timeout => true
  | .sockError => false
  | .data d => d.isEmpty || decide (parse_auth_response d = .waiting)

/-- A receive outcome carrying a well-formed response with payload AUTH_OK. -/
def isAuthOk (e : RecvEvent) : Bool :=
  match e with
  | .data d => !d.isEmpty && decide (parse_auth_response d = .ok)
  | _ => false

/-- A receive outcome carrying a well-formed response with payload
AUTH_ACCESS_DENIED. -/
def isDeniedEvent (e : RecvEvent) : Bool :=
  match e with
  | .data d => !d.isEmpty && decide (parse_auth_response d = .denied)
  | _ => false

/-- A concrete well-formed frame: kind 0x02, sender "x", payload AUTH_OK. -/
def okFrame : Str := [0x02, 1, 0, 120, 4, 0, 0x64, 0, 1, 0]

/-- A concrete well-formed frame: kind 0x02, sender "x", payload
AUTH_NEED_CONFIRM. -/
def ncFrame : Str := [0x02, 1, 0, 120, 6, 0, 0x0a, 0, 2, 0, 0, 0]

/-- A concrete well-formed frame: kind 0x02, sender "x", payload
AUTH_ACCESS_DENIED. -/
def deniedFrame : Str := [0x02, 1, 0, 120, 4, 0, 0x64, 0, 0, 0]

/-- An event stream that answers every recv with an AUTH_ACCESS_DENIED frame. -/
def deniedEvents : Nat → RecvEvent := fun _ => .data deniedFrame

/-- Event stream: first a NEED_CONFIRM response, then AUTH_OK responses. -/
def confirmThenOkEvents : Nat → RecvEvent := fun i =>
  match i with
  | 0 => .data ncFrame
  | _ => .data okFrame

/-- Event stream that answers every recv with a NEED_CONFIRM response. -/
def allConfirmEvents : Nat → RecvEvent := fun _ => .data ncFrame

/-- Event stream: two receive timeouts, then AUTH_ACCESS_DENIED on the last
auth attempt. -/
def lateDeniedEvents : Nat → RecvEvent := fun i =>
  if i < 2 then .timeout else .data deniedFrame

/-- The exception raised by `None.close()`: `AttributeError`. -/
inductive DisconnectErr where
  | attributeError
deriving DecidableEq

/-- `SmartTV.disconnect` from base.py lines 368-371, acting on the `_sock`
attribute (`some ()` = a live socket object, `none` = the attribute is None).

    self._sock.close()    -- AttributeError if self._sock is None
    self._sock = None

A successful call returns the new `_sock` value. -/
def disconnect (sock : Option Unit) : Except DisconnectErr (Option Unit) :=
  match sock with
  | some _ => .ok none
  | none => .error .attributeError

/-- Decimal digits of `n`, most significant first, with explicit recursion
fuel (any fuel above `n` is enough). -/
def decDigitsAux (fuel n : Nat) : List Nat :=
  match fuel with
  | 0 => []
  | fuel + 1 => if n < 10 then [n] else decDigitsAux fuel (n / 10) ++ [n % 10]

/-- Decimal digits of `n`, most significant first: the digits of `str(n)`. -/
def decDigits (n : Nat) : List Nat := decDigitsAux (n + 1) n

/-- Python `"%04d" % n` for a natural `n`: left-pad the decimal digits with
zeros to a minimum width of 4 (longer numbers are NOT truncated). -/
def pad4 (l : List Nat) : List Nat := List.replicate (4 - l.length) 0 ++ l

/-- The lookup `map_ = dict((str(x), "KEY_%d" % x) for x in range(10))`
applied to one digit. -/
def keyFor (d : Nat) : String := "KEY_" ++ toString d

/-- `SmartTV.set_channel` from base.py lines 459-473, recording the key
codes sent (one `send_key` per formatted digit, in order):

    for digit in "%04d" % channel:
        self.send_key(map_[digit]) -/
def set_channel (channel : Nat) : List String :=
  (pad4 (decDigits channel)).map keyFor

/-- The dispatch loop body of `ThreadReceiver.run` (listener.py lines
134-136) for one message: callbacks fire in list order, each guarded by
its matcher.

    for (matcher, listener) in self._listeners:
        if matcher(msg):
            listener(msg) -/
def dispatch {α : Type} (listeners : List ((Message → Bool) × α)) (msg : Message) :
    List α :=
  match listeners with
  | [] => []
  | (matcher, listener) :: rest =>
    if matcher msg then listener :: dispatch rest msg
    else dispatch rest msg

/-- `ThreadReceiver.add_listener` (listener.py lines 102-117):
`self._listeners.append((matcher, listener))`. -/
def add_listener {α : Type} (listeners : List ((Message → Bool) × α))
    (listener : α) (matcher : Message → Bool) : List ((Message → Bool) × α) :=
  listeners ++ [(matcher, listener)]

/-- The receive/dispatch loop of `ThreadReceiver.run` (listener.py lines
119-139) over a finite trace of socket outcomes (`_stopping` is modelled as
becoming true once the trace ends).  Returns the callback invocations in
order, paired with a flag that is true when the thread died on an uncaught
exception (`socket.error` from recv, or the IndexError that
`Message.parse` raises on a 1-byte frame, which `except ValueError` does
not catch).

    while not self._stopping:
        try: data = self.recv()
        except socket.timeout: continue
        try: msg = base.Message.parse(data)
        except ValueError: print(...); continue
        for (matcher, listener) in self._listeners:
            if matcher(msg): listener(msg) -/
def runLoop {α : Type} (events : List RecvEvent)
    (listeners : List ((Message → Bool) × α)) : List (α × Message) × Bool :=
  match events with
  | [] => ([], false)
  | e :: rest =>
    match recv e with
    | .error (.timeout _) => runLoop rest listeners
    | .error .socketError => ([], true)
    | .ok d =>
      match Message.parse d with
      | .error .indexError => ([], true)
      | .error _ => runLoop rest listeners
      | .ok msg =>
        ((dispatch listeners msg).map (fun cb => (cb, msg)) ++
           (runLoop rest listeners).1,
         (runLoop rest listeners).2)

theorem sstv_string_ok_of_le (s : Str) (h : s.length ≤ 65536) :
    sstv_string s = .ok (s.length % 256 :: s.length / 256 :: s) := by
  unfold sstv_string
  rw [if_neg (by omega)]

theorem sstv_string_ok_inv (s es : Str) (h : sstv_string s = .ok es) :
    es = s.length % 256 :: s.length / 256 :: s := by
  unfold sstv_string at h
  split at h
  · exact absurd h (by simp)
  · exact (Except.ok.injEq _ _ ▸ h).symm

theorem parse_sstv_encoded_append (s extra : Str) :
    parse_sstv_string (s.length % 256 :: s.length / 256 :: (s ++ extra)) =
      .ok (s, extra) := by
  have hl : s.length % 256 + s.length / 256 * 256 = s.length := by omega
  simp only [parse_sstv_string, hl]
  rw [if_neg (by simp)]
  simp [List.take_left, List.drop_left]

/-- Claim C3: for every byte string `b` with length at most 65535, decoding
the encoding round-trips exactly: `parse_sstv_string` applied to the result
of `sstv_string b` returns the pair `(b, [])`. -/
theorem sstv_roundtrip (b : Str) (_hbytes : ∀ x ∈ b, x < 256)
    (hlen : b.length ≤ 65535) :
    ∃ enc, sstv_string b = .ok enc ∧ parse_sstv_string enc = .ok (b, []) := by
  refine ⟨b.length % 256 :: b.length / 256 :: b,
    sstv_string_ok_of_le b (by omega), ?_⟩
  have h := parse_sstv_encoded_append b []
  simpa using h

theorem parse_sstv_cons_truncated (b0 b1 : Nat) (rest : Str)
    (h : rest.length < b0 + b1 * 256) :
    parse_sstv_string (b0 :: b1 :: rest) =
      .error (.missingBytes (b0 + b1 * 256)) := by
  simp only [parse_sstv_string]
  rw [if_pos (by simp; omega)]

/-- Witness for C3 at the concrete byte string "tv". -/
theorem sstv_roundtrip_witness :
    ∃ enc, sstv_string [116, 118] = .ok enc ∧
      parse_sstv_string enc = .ok ([116, 118], []) :=
  sstv_roundtrip [116, 118] (by decide) (by decide)

/-- Claim C4 (divergence): the guard in the encoder is `length > 256 * 256`,
i.e. 65536, not 65535.  An input of exactly 65535 bytes succeeds (as
claimed), but so does an input of 65536 bytes, whose "high length byte" is
the value 256 — not a byte at all, contradicting the documented 2-byte
little-endian length; only at 65537 bytes does `ValueError` fire. -/
theorem sstv_string_oversize_offbyone :
    sstv_string (List.replicate 65535 0) =
        .ok (255 :: 255 :: List.replicate 65535 0) ∧
    sstv_string (List.replicate 65536 0) =
        .ok (0 :: 256 :: List.replicate 65536 0) ∧
    sstv_string (List.replicate 65537 0) = .error .valueTooLarge := by
  refine ⟨?_, ?_, ?_⟩ <;>
    · unfold sstv_string
      rw [List.length_replicate]
      norm_num

/-- Counterexample for C5: on a buffer shorter than the 2-byte length
prefix itself, `parse_sstv_string` raises IndexError (from `ord(data[0])`
or `ord(data[1])`), not the reported `ValueError("missing ... bytes")`
truncation failure the claim promises. -/
theorem parse_sstv_short_buffer_cex :
    parse_sstv_string [] = .error .indexError ∧
    parse_sstv_string [9] = .error .indexError := ⟨rfl, rfl⟩

/-- Claim C5 as amended: `parse_sstv_string` never succeeds on a buffer
holding fewer than `declared_length + 2` bytes — with at least 2 bytes
present it fails with the reported truncation `ValueError`, but with fewer
than 2 bytes it fails with an uncaught IndexError instead of the reported
truncation error. -/
theorem parse_sstv_truncation :
    (∀ (b0 b1 : Nat) (rest : Str), rest.length < b0 + b1 * 256 →
      parse_sstv_string (b0 :: b1 :: rest) =
        .error (.missingBytes (b0 + b1 * 256))) ∧
    (∀ d : Str, d.length < 2 → parse_sstv_string d = .error .indexError) := by
  constructor
  · exact parse_sstv_cons_truncated
  · intro d h
    match d with
    | [] => rfl
    | [x] => rfl
    | x :: y :: t => simp at h; omega

/-- Witness for C5 at a declared length of 5 with no payload bytes, and at
a 1-byte buffer. -/
theorem parse_sstv_truncation_witness :
    parse_sstv_string [5, 0] = .error (.missingBytes 5) ∧
    parse_sstv_string [7] = .error .indexError := by
  constructor
  · have h := parse_sstv_truncation.1 5 0 [] (by decide)
    simpa using h
  · exact parse_sstv_truncation.2 [7] (by decide)

/-- Claim C6: `Message.parse` on `[0x02] ++ LP("src") ++ LP("payload")`
yields the message with kind 0x02, sender "src" (bytes 115,114,99) and
payload "payload" (bytes 112,97,121,108,111,97,100); and for every buffer
of the shape `[kind] ++ LP(s) ++ LP(p) ++ [extra byte]` — one trailing byte
after the two length-prefixed fields — parsing fails with the
trailing-data `ValueError`. -/
theorem message_parse_exactness :
    Message.parse
        (0x02 :: ([3, 0, 115, 114, 99] ++
          [7, 0, 112, 97, 121, 108, 111, 97, 100])) =
      .ok ⟨0x02, [112, 97, 121, 108, 111, 97, 100], some [115, 114, 99]⟩ ∧
    (∀ (k b : Nat) (s p es ep : Str),
      sstv_string s = .ok es → sstv_string p = .ok ep →
      Message.parse (k :: (es ++ (ep ++ [b]))) =
        .error (.parserError [b])) := by
  constructor
  · rfl
  · intro k b s p es ep hs hp
    rw [sstv_string_ok_inv s es hs, sstv_string_ok_inv p ep hp]
    simp [Message.parse, parse_sstv_encoded_append]

/-- Witness for the trailing-byte clause of C6 at kind 2, sender "src",
payload "p" and trailing byte 9. -/
theorem message_parse_exactness_witness :
    Message.parse (2 :: ([3, 0, 115, 114, 99] ++ ([1, 0, 112] ++ [9]))) =
      .error (.parserError [9]) :=
  message_parse_exactness.2 2 9 [115, 114, 99] [112]
    [3, 0, 115, 114, 99] [1, 0, 112] rfl rfl

theorem authLoop_closed (events : Nat → RecvEvent) (i fuel : Nat) :
    authLoop events i (fuel + 1) true = (.socketError, 1) := by
  simp [authLoop]

theorem authLoop_succ_nonterm (events : Nat → RecvEvent) (i fuel : Nat)
    (h : isNonTerminal (events i) = true) :
    authLoop events i (fuel + 1) false =
      ((authLoop events (i + 1) fuel false).1,
       (authLoop events (i + 1) fuel false).2 + 1) := by
  cases he : events i with
  | timeout => simp [authLoop, he, recv]
  | sockError => simp [isNonTerminal, he] at h
  | data d =>
    simp only [isNonTerminal, he] at h
    by_cases hd : d = []
    · subst hd
      simp [authLoop, he, recv]
    · have hw : parse_auth_response d = .waiting := by
        have hne : d.isEmpty = false := by simp [hd]
        simpa [hne] using h
      have hlen : ¬ d.length = 0 := by cases d <;> simp_all
      simp [authLoop, he, recv, hlen, hw]

theorem authLoop_succ_ok (events : Nat → RecvEvent) (i fuel : Nat)
    (h : isAuthOk (events i) = true) :
    authLoop events i (fuel + 1) false = (.success, 1) := by
  cases he : events i with
  | timeout => simp [isAuthOk, he] at h
  | sockError => simp [isAuthOk, he] at h
  | data d =>
    simp only [isAuthOk, he, Bool.and_eq_true, Bool.not_eq_true',
      decide_eq_true_eq] at h
    obtain ⟨hne, hok⟩ := h
    have hlen : ¬ d.length = 0 := by cases d <;> simp_all
    simp [authLoop, he, recv, hlen, hok]

theorem authLoop_succ_denied (events : Nat → RecvEvent) (i fuel : Nat)
    (h : isDeniedEvent (events i) = true) :
    authLoop events i (fuel + 1) false =
      ((authLoop events (i + 1) fuel true).1,
       (authLoop events (i + 1) fuel true).2 + 1) := by
  cases he : events i with
  | timeout => simp [isDeniedEvent, he] at h
  | sockError => simp [isDeniedEvent, he] at h
  | data d =>
    simp only [isDeniedEvent, he, Bool.and_eq_true, Bool.not_eq_true',
      decide_eq_true_eq] at h
    obtain ⟨hne, hden⟩ := h
    have hlen : ¬ d.length = 0 := by cases d <;> simp_all
    simp [authLoop, he, recv, hlen, hden]

theorem authLoop_exhaust (fuel : Nat) : ∀ (events : Nat → RecvEvent) (i : Nat),
    (∀ j, j < fuel → isNonTerminal (events (i + j)) = true) →
    authLoop events i fuel false = (.accessDenied, fuel) := by
  induction fuel with
  | zero => intro events i _; rfl
  | succ fuel ih =>
    intro events i h
    have hshift : ∀ j, j < fuel → isNonTerminal (events (i + 1 + j)) = true := by
      intro j hj
      have h2 := h (j + 1) (by omega)
      have he : i + (j + 1) = i + 1 + j := by omega
      rwa [he] at h2
    rw [authLoop_succ_nonterm events i fuel (by simpa using h 0 (by omega)),
      ih events (i + 1) hshift]

theorem authLoop_ok_at (k : Nat) :
    ∀ (fuel : Nat) (events : Nat → RecvEvent) (i : Nat), k < fuel →
    (∀ j, j < k → isNonTerminal (events (i + j)) = true) →
    isAuthOk (events (i + k)) = true →
    authLoop events i fuel false = (.success, k + 1) := by
  induction k with
  | zero =>
    intro fuel events i hk hpre hok
    cases fuel with
    | zero => omega
    | succ f => exact authLoop_succ_ok events i f (by simpa using hok)
  | succ k ih =>
    intro fuel events i hk hpre hok
    cases fuel with
    | zero => omega
    | succ f =>
      have h0 : isNonTerminal (events i) = true := by
        simpa using hpre 0 (by omega)
      have hshift : ∀ j, j < k → isNonTerminal (events (i + 1 + j)) = true := by
        intro j hj
        have h2 := hpre (j + 1) (by omega)
        have he : i + (j + 1) = i + 1 + j := by omega
        rwa [he] at h2
      have hok2 : isAuthOk (events (i + 1 + k)) = true := by
        have he : i + (k + 1) = i + 1 + k := by omega
        rwa [he] at hok
      rw [authLoop_succ_nonterm events i f h0,
        ih f events (i + 1) (by omega) hshift hok2]

theorem authLoop_denied_at (k : Nat) :
    ∀ (fuel : Nat) (events : Nat → RecvEvent) (i : Nat), k < fuel →
    (∀ j, j < k → isNonTerminal (events (i + j)) = true) →
    isDeniedEvent (events (i + k)) = true →
    authLoop events i fuel false =
      if k + 1 = fuel then (.accessDenied, fuel) else (.socketError, k + 2) := by
  induction k with
  | zero =>
    intro fuel events i hk hpre hd
    cases fuel with
    | zero => omega
    | succ f =>
      rw [authLoop_succ_denied events i f (by simpa using hd)]
      cases f with
      | zero => simp [authLoop]
      | succ f2 =>
        rw [authLoop_closed]
        rw [if_neg (by omega)]
  | succ k ih =>
    intro fuel events i hk hpre hd
    cases fuel with
    | zero => omega
    | succ f =>
      have h0 : isNonTerminal (events i) = true := by
        simpa using hpre 0 (by omega)
      have hshift : ∀ j, j < k → isNonTerminal (events (i + 1 + j)) = true := by
        intro j hj
        have h2 := hpre (j + 1) (by omega)
        have he : i + (j + 1) = i + 1 + j := by omega
        rwa [he] at h2
      have hd2 : isDeniedEvent (events (i + 1 + k)) = true := by
        have he : i + (k + 1) = i + 1 + k := by omega
        rwa [he] at hd
      rw [authLoop_succ_nonterm events i f h0,
        ih f events (i + 1) (by omega) hshift hd2]
      by_cases hf : k + 1 = f
      · rw [if_pos hf, if_pos (by omega)]
      · rw [if_neg hf, if_neg (by omega)]

/-- Claim C1: in the `_authenticate` retry loop (with the default budget
`_auth_tries = 3`), every non-terminal receive outcome — a receive timeout
or a response whose payload is AUTH_NEED_CONFIRM — makes the loop retry;
an AUTH_OK response on attempt `k` within the budget returns success after
exactly `k + 1` receive attempts; and if all `auth_tries` attempts pass
without a terminal outcome, the loop raises
`AuthenticationError("access denied by remote device")` after exactly
`auth_tries` receive attempts. -/
theorem authenticate_retry_policy :
    (∀ (events : Nat → RecvEvent) (k : Nat), k < auth_tries →
      (∀ i, i < k → isNonTerminal (events i) = true) →
      isAuthOk (events k) = true →
      authenticate events auth_tries = (.success, k + 1)) ∧
    (∀ events : Nat → RecvEvent,
      (∀ i, i < auth_tries → isNonTerminal (events i) = true) →
      authenticate events auth_tries = (.accessDenied, auth_tries)) := by
  constructor
  · intro events k hk hpre hok
    exact authLoop_ok_at k auth_tries events 0 hk
      (fun j hj => by simpa using hpre j hj) (by simpa using hok)
  · intro events h
    exact authLoop_exhaust auth_tries events 0
      (fun j hj => by simpa using h j hj)

/-- Witness for C1: a NEED_CONFIRM response followed by AUTH_OK succeeds on
the second attempt; NEED_CONFIRM on every attempt exhausts the budget into
AuthenticationError. -/
theorem authenticate_retry_policy_witness :
    authenticate confirmThenOkEvents auth_tries = (.success, 2) ∧
    authenticate allConfirmEvents auth_tries = (.accessDenied, auth_tries) := by
  constructor
  · exact authenticate_retry_policy.1 confirmThenOkEvents 1 (by decide)
      (fun i hi => by
        have h0 : i = 0 := by omega
        subst h0
        decide)
      (by decide)
  · exact authenticate_retry_policy.2 allConfirmEvents (fun i _ => by
      show isNonTerminal (RecvEvent.data ncFrame) = true
      decide)

/-- Counterexample for C2: with an AUTH_ACCESS_DENIED response on the first
attempt (and two attempts remaining), `_authenticate` does NOT stop with
`AuthenticationError`: `_parse_auth_response` closes the socket and returns
False, the loop continues, and the next receive attempt on the closed
socket raises `socket.error` — a second receive attempt is made and the
failure is a socket error, not AuthenticationDenied. -/
theorem auth_denied_not_terminal_cex :
    authenticate deniedEvents auth_tries = (.socketError, 2) ∧
    authenticate deniedEvents auth_tries ≠ (.accessDenied, 1) := by
  constructor
  · decide
  · decide

/-- Claim C2 as amended: a response whose payload is AUTH_ACCESS_DENIED
closes the Transport, but is not immediately terminal: the loop continues;
if the denial arrived on the last of the `auth_tries` attempts the loop
exhausts into `AuthenticationError("access denied by remote device")`,
otherwise the next receive attempt operates on the closed socket and the
authentication fails with a propagated `socket.error` after exactly one
further receive attempt. -/
theorem auth_denied_closes_then_continues :
    ∀ (events : Nat → RecvEvent) (k : Nat), k < auth_tries →
      (∀ i, i < k → isNonTerminal (events i) = true) →
      isDeniedEvent (events k) = true →
      authenticate events auth_tries =
        if k + 1 = auth_tries then (.accessDenied, auth_tries)
        else (.socketError, k + 2) := by
  intro events k hk hpre hd
  exact authLoop_denied_at k auth_tries events 0 hk
    (fun j hj => by simpa using hpre j hj) (by simpa using hd)

/-- Witness for the amended C2 at a denial on the last attempt: two
timeouts, then AUTH_ACCESS_DENIED, ends in AuthenticationError after all
3 attempts. -/
theorem auth_denied_closes_then_continues_witness :
    authenticate lateDeniedEvents auth_tries = (.accessDenied, auth_tries) := by
  have h := auth_denied_closes_then_continues lateDeniedEvents 2 (by decide)
    (fun i hi => by
      have ht : lateDeniedEvents i = .timeout := by
        simp [lateDeniedEvents, hi]
      rw [ht]
      rfl)
    (by decide)
  simpa using h

/-- Counterexample for C7: a zero-length read makes `SmartTV.recv` raise
`socket.timeout` — the very same exception kind as a receive timeout —
not a distinct ConnectionClosed error kind; only the message text differs. -/
theorem recv_zero_read_timeout_kind_cex :
    recv (.data []) = .error (.timeout "Received 0 bytes") ∧
    recvErrKind (recv (.data [])) = some .timeoutKind ∧
    recvErrKind (recv .timeout) = some .timeoutKind ∧
    recvErrKind (recv (.data [])) = recvErrKind (recv .timeout) :=
  ⟨rfl, rfl, rfl, rfl⟩

/-- Claim C7 as amended: a zero-length read is never returned as a valid
empty frame — `recv` raises on it, and any data it does return is the
non-empty bytes read — but the exception raised is `socket.timeout` (the
same kind as a receive timeout), merely carrying a message that hints at a
disconnect, not a separate ConnectionClosed error kind. -/
theorem recv_zero_read_behavior :
    recv (.data []) = .error (.timeout "Received 0 bytes") ∧
    (∀ d : Str, recv (.data d) ≠ .ok []) ∧
    (∀ d : Str, d ≠ [] → recv (.data d) = .ok d) := by
  refine ⟨rfl, ?_, ?_⟩
  · intro d h
    by_cases hd : d = []
    · subst hd
      simp [recv] at h
    · have hlen : ¬ d.length = 0 := by cases d <;> simp_all
      simp [recv, hlen] at h
      exact hd h
  · intro d hd
    have hlen : ¬ d.length = 0 := by cases d <;> simp_all
    simp [recv, hlen]

/-- Witness for the amended C7 at a 2-byte read. -/
theorem recv_zero_read_behavior_witness :
    recv (.data [1, 2]) = .ok [1, 2] :=
  recv_zero_read_behavior.2.2 [1, 2] (by decide)

theorem decDigitsAux_length_le (k : Nat) :
    ∀ (n fuel : Nat), n < 10 ^ (k + 1) → n < fuel →
    (decDigitsAux fuel n).length ≤ k + 1 := by
  induction k with
  | zero =>
    intro n fuel h hf
    cases fuel with
    | zero => omega
    | succ f =>
      have h10 : n < 10 := by simpa using h
      simp [decDigitsAux, h10]
  | succ k ih =>
    intro n fuel h hf
    cases fuel with
    | zero => omega
    | succ f =>
      by_cases h10 : n < 10
      · simp [decDigitsAux, h10]
      · have hmul : n < 10 ^ (k + 1) * 10 := by
          calc n < 10 ^ (k + 1 + 1) := h
          _ = 10 ^ (k + 1) * 10 := pow_succ 10 (k + 1)
        have hdiv : n / 10 < 10 ^ (k + 1) := by omega
        have hfd : n / 10 < f := by omega
        have hlen := ih (n / 10) f hdiv hfd
        simp [decDigitsAux, h10]
        omega

theorem decDigitsAux_length_ge (k : Nat) :
    ∀ (n fuel : Nat), 10 ^ k ≤ n → n < fuel →
    k + 1 ≤ (decDigitsAux fuel n).length := by
  induction k with
  | zero =>
    intro n fuel h hf
    cases fuel with
    | zero => omega
    | succ f =>
      by_cases h10 : n < 10
      · simp [decDigitsAux, h10]
      · simp [decDigitsAux, h10]
  | succ k ih =>
    intro n fuel h hf
    cases fuel with
    | zero => omega
    | succ f =>
      have hp : (10 : Nat) ^ (k + 1) = 10 ^ k * 10 := pow_succ 10 k
      have hbase : (10 : Nat) ≤ 10 ^ (k + 1) := by
        calc (10 : Nat) = 10 ^ 1 := (pow_one 10).symm
        _ ≤ 10 ^ (k + 1) := Nat.pow_le_pow_right (by norm_num) (by omega)
      have h10 : ¬ n < 10 := by omega
      have hdiv : 10 ^ k ≤ n / 10 := by
        rw [hp] at h
        omega
      have hfd : n / 10 < f := by omega
      have hlen := ih (n / 10) f hdiv hfd
      simp [decDigitsAux, h10]
      omega

theorem decDigits_length_le4 (n : Nat) (h : n ≤ 9999) :
    (decDigits n).length ≤ 4 :=
  decDigitsAux_length_le 3 n (n + 1)
    (by
      have hpow : (10 : Nat) ^ (3 + 1) = 10000 := by norm_num
      omega)
    (by omega)

theorem decDigits_length_ge5 (n : Nat) (h : 9999 < n) :
    5 ≤ (decDigits n).length :=
  decDigitsAux_length_ge 4 n (n + 1)
    (by
      have hpow : (10 : Nat) ^ 4 = 10000 := by norm_num
      omega)
    (by omega)

/-- Counterexample for C8: `set_channel` with channel 10000 (which does not
fit in 4 decimal digits) raises nothing and sends 5 digit key presses —
the formatted string "%04d" of 10000 is "10000", which the loop dutifully
sends digit by digit; there is no InvalidChannel failure and more than 4
key presses are sent. -/
theorem set_channel_overflow_cex :
    set_channel 10000 = ["KEY_1", "KEY_0", "KEY_0", "KEY_0", "KEY_0"] ∧
    (set_channel 10000).length = 5 :=
  ⟨rfl, rfl⟩

/-- Claim C8 as amended: `set_channel` never fails and never truncates:
for a channel of at most 9999 it sends exactly 4 zero-padded digit key
presses, and for a channel above 9999 it silently sends one key press per
decimal digit of the number — at least 5 of them — rather than raising an
InvalidChannel error. -/
theorem set_channel_digits :
    (∀ n : Nat, n ≤ 9999 → (set_channel n).length = 4) ∧
    (∀ n : Nat, 9999 < n →
      set_channel n = (decDigits n).map keyFor ∧
      5 ≤ (set_channel n).length) := by
  constructor
  · intro n h
    have hle := decDigits_length_le4 n h
    simp only [set_channel, pad4, List.length_map, List.length_append,
      List.length_replicate]
    omega
  · intro n h
    have hge := decDigits_length_ge5 n h
    have hz : 4 - (decDigits n).length = 0 := by omega
    refine ⟨?_, ?_⟩
    · simp [set_channel, pad4, hz]
    · simp only [set_channel, pad4, hz, List.replicate_zero, List.nil_append,
        List.length_map]
      omega

/-- Witness for the amended C8 at channels 7 and 10000. -/
theorem set_channel_digits_witness :
    (set_channel 7).length = 4 ∧ 5 ≤ (set_channel 10000).length :=
  ⟨set_channel_digits.1 7 (by decide),
   (set_channel_digits.2 10000 (by decide)).2⟩

/-- Counterexample for C9: the first `disconnect` succeeds and sets `_sock`
to None, but a second `disconnect` is not legal — `None.close()` raises
AttributeError — so close/disconnect is not idempotent. -/
theorem disconnect_not_idempotent_cex :
    disconnect (some ()) = .ok none ∧
    (disconnect (some ())).bind disconnect = .error .attributeError :=
  ⟨rfl, rfl⟩

/-- Claim C9 as amended: `disconnect` on a live socket closes it and
releases it (the `_sock` attribute becomes None), but it is not
idempotent: calling it again on the now-None attribute raises
AttributeError instead of succeeding. -/
theorem disconnect_releases_socket :
    disconnect (some ()) = .ok none ∧
    disconnect none = .error .attributeError :=
  ⟨rfl, rfl⟩

/-- Claim C10: for every message and every registered list of
(matcher, listener) pairs, the `ThreadReceiver.run` dispatch loop invokes
exactly the listeners whose matcher accepts the message, in registration
order; in particular registering (alwaysTrue, A) then (alwaysTrue, B) via
`add_listener` and feeding one parseable frame invokes A before B. -/
theorem listener_dispatch_order :
    (∀ (α : Type) (L : List ((Message → Bool) × α)) (msg : Message),
      dispatch L msg = (L.filter (fun p => p.1 msg)).map Prod.snd) ∧
    (∀ (α : Type) (A B : α) (frame : Str) (msg : Message),
      Message.parse frame = .ok msg →
      runLoop [.data frame]
          (add_listener (add_listener [] A (fun _ => true)) B (fun _ => true)) =
        ([(A, msg), (B, msg)], false)) := by
  constructor
  · intro α L msg
    induction L with
    | nil => rfl
    | cons p rest ih =>
      obtain ⟨m, cb⟩ := p
      cases hm : m msg <;> simp [dispatch, hm, ih, List.filter_cons]
  · intro α A B frame msg h
    have hne : frame ≠ [] := by
      intro hfr
      subst hfr
      simp [Message.parse] at h
    have hlen : ¬ frame.length = 0 := by cases frame <;> simp_all
    simp [runLoop, recv, hlen, h, add_listener, dispatch]

/-- Witness for C10: two always-true listeners fed one AUTH_OK frame fire
in registration order. -/
theorem listener_dispatch_order_witness :
    runLoop [RecvEvent.data okFrame]
        (add_listener
          (add_listener ([] : List ((Message → Bool) × Nat)) 0 (fun _ => true))
          1 (fun _ => true)) =
      ([(0, ⟨2, AUTH_OK, some [120]⟩), (1, ⟨2, AUTH_OK, some [120]⟩)], false) :=
  listener_dispatch_order.2 Nat 0 1 okFrame ⟨2, AUTH_OK, some [120]⟩ rfl
